import Mathlib

/-!
# JdSpider: shallow embedding of the resume orchestrator and spiders

A shallow embedding of the JdSpider repository (main.py, com_spider.py,
qa_spider.py) in Lean 4, together with theorems settling the spec's
claims about it.

Python strings are modelled as `List Char`; `str.split` with a
one-character separator is `splitOnChar`; JSON object fields that may be
absent are `Option` fields with `Option.getD` standing for `dict.get`
with a default.
-/

set_option autoImplicit false

namespace JdSpider

abbrev PyStr := List Char

/-- A product identifier as it appears in a manifest's `"sku"` field:
JSON decoding can give a string or an integer. -/
inductive SkuId where
  | str (s : PyStr)
  | int (n : Int)
deriving DecidableEq, Repr

/-- Python's `f"...{self.product_id}..."` stringification of the id. -/
def skuStr : SkuId → PyStr
  | .str s => s
  | .int n => (toString n).data

/-- Python `s.split(c)` for a one-character separator `c`:
`"a_b_c".split('_') = ["a","b","c"]`, `"".split('_') = [""]`. -/
def splitOnChar (c : Char) : PyStr → List PyStr
  | [] => [[]]
  | x :: xs =>
    if x = c then [] :: splitOnChar c xs
    else
      match splitOnChar c xs with
      | [] => [[x]]
      | y :: ys => (x :: y) :: ys

def csvSuffix : PyStr := ['.', 'c', 's', 'v']

def jsonSuffix : PyStr := ['.', 'j', 's', 'o', 'n']

/-- Python `s.endswith(suf)`. -/
def endsWith (suf s : PyStr) : Bool := decide (suf <:+ s)

/-- main.py line 80: `file.split('_')[1].split('.')[0]`.  Returns `none`
where Python would raise `IndexError` (a name with no `'_'`); the
pipeline itself only ever writes `com_*` / `qa_*` names, which always
split. -/
def extractId (f : PyStr) : Option PyStr :=
  match splitOnChar '_' f with
  | _ :: seg :: _ => some ((splitOnChar '.' seg).headD [])
  | _ => none

/-- main.py lines 77-81: scan the output directory, keep `.csv` names,
strip the kind prefix and the extension.  The CompletedTargetIndex. -/
def buildIndex (files : List PyStr) : List PyStr :=
  (files.filter (fun f => endsWith csvSuffix f)).filterMap extractId

/-- main.py line 88: `product_id in output_files`.  The index holds
strings, and Python `int == str` is always `False`, so an integer sku
never tests as a member. -/
def skuIn (sku : SkuId) (index : List PyStr) : Bool :=
  match sku with
  | .str s => decide (s ∈ index)
  | .int _ => false

/-- com_spider.save_comments line 128: `f"com_{self.product_id}.csv"`. -/
def comArtifact (pid : SkuId) : PyStr :=
  'c' :: 'o' :: 'm' :: '_' :: (skuStr pid ++ csvSuffix)

/-- qa_spider.save_data line 144: `f"qa_{self.product_id}.csv"`. -/
def qaArtifact (pid : SkuId) : PyStr :=
  'q' :: 'a' :: '_' :: (skuStr pid ++ csvSuffix)

/-! ## Parsers -/

/-- One element of the `comments` list of a comment-page payload; a
`none` field models an absent JSON key. -/
structure RawComment where
  id : Option PyStr
  nickname : Option PyStr
  content : Option PyStr
  creationTime : Option PyStr
  score : Option PyStr
  location : Option PyStr
  referenceName : Option PyStr
deriving DecidableEq, Repr

/-- One row of the comment DataFrame built in parse_comments. -/
structure CommentRow where
  user_id : PyStr
  user_name : PyStr
  content : PyStr
  create_time : PyStr
  score : PyStr
  location : PyStr
  product_id : PyStr
  product_name : PyStr
deriving DecidableEq, Repr

/-- com_spider.parse_comments line 104: `.replace('\n', ' ')`. -/
def replaceNl (s : PyStr) : PyStr :=
  s.map (fun ch => if ch = '\n' then ' ' else ch)

/-- com_spider.parse_comments lines 100-110: every field is read with
`comment.get(key, '')`, so an absent field becomes `''`. -/
def parseCommentRecord (pid : SkuId) (c : RawComment) : CommentRow :=
  { user_id := c.id.getD []
    user_name := c.nickname.getD []
    content := replaceNl (c.content.getD [])
    create_time := c.creationTime.getD []
    score := c.score.getD []
    location := c.location.getD []
    product_id := skuStr pid
    product_name := c.referenceName.getD [] }

/-- com_spider.parse_comments: `json_obj.get('comments', [])` (payload
`none` models an absent `comments` key) then one row per record. -/
def parseComments (pid : SkuId) (payload : Option (List RawComment)) :
    List CommentRow :=
  (payload.getD []).map (parseCommentRecord pid)

/-- One element of an `answerList` in a QA payload. -/
structure RawAnswer where
  id : Option PyStr
  content : Option PyStr
  created : Option PyStr
  location : Option PyStr
deriving DecidableEq, Repr

/-- One element of the `questionList` of a QA-page payload.  The scalar
fields are read with `.get`; `answerList` is accessed with
`qa['answerList']`, a bracket access, so `none` here raises `KeyError`
in the Python. -/
structure RawQuestion where
  id : Option PyStr
  content : Option PyStr
  productId : Option PyStr
  created : Option PyStr
  answerList : Option (List RawAnswer)
deriving DecidableEq, Repr

/-- One row of the QA DataFrame built in parse_qa. -/
structure QARow where
  id : PyStr
  question_content : PyStr
  product_id : PyStr
  created_time : PyStr
  answer_id : PyStr
  answer_content : PyStr
  answer_created_time : PyStr
  location : PyStr
deriving DecidableEq, Repr

/-- qa_spider.parse_qa lines 112-125: one output row per
(question, answer) pair. -/
def mkQARow (q : RawQuestion) (a : RawAnswer) : QARow :=
  { id := q.id.getD []
    question_content := q.content.getD []
    product_id := q.productId.getD []
    created_time := q.created.getD []
    answer_id := a.id.getD []
    answer_content := a.content.getD []
    answer_created_time := a.created.getD []
    location := a.location.getD [] }

/-- qa_spider.parse_qa lines 111-127: the whole for-loop sits inside one
`try/except Exception`.  A question whose `answerList` key is absent
raises `KeyError` at `qa['answerList']`; the except block fires and the
rows appended so far are what the page yields — every question after
the malformed one is dropped. -/
def parseQARows : List RawQuestion → List QARow
  | [] => []
  | q :: rest =>
    match q.answerList with
    | none => []
    | some ans => ans.map (mkQARow q) ++ parseQARows rest

/-- qa_spider.parse_qa: `json_obj.get('questionList', [])` then the
guarded loop. -/
def parseQA (payload : Option (List RawQuestion)) : List QARow :=
  parseQARows (payload.getD [])

/-- The records one question contributes when its `answerList` is
present (absent list read as empty for the purpose of stating claims). -/
def qaExpand (q : RawQuestion) : List QARow :=
  (q.answerList.getD []).map (mkQARow q)

/-! ## Persister -/

inductive PersistResult where
  | skipped
  | persisted
deriving DecidableEq, Repr

/-- com_spider.save_comments lines 128-133: `if len(comm_data) <= 1`
return without writing, else write `com_<id>.csv` into the output
directory (returned as the updated directory listing). -/
def saveComments (pid : SkuId) (rows : List CommentRow) (files : List PyStr) :
    PersistResult × List PyStr :=
  if rows.length ≤ 1 then (.skipped, files)
  else (.persisted, files ++ [comArtifact pid])

/-- qa_spider.save_data lines 144-149: same guard, writes
`qa_<id>.csv`. -/
def saveData (pid : SkuId) (rows : List QARow) (files : List PyStr) :
    PersistResult × List PyStr :=
  if rows.length ≤ 1 then (.skipped, files)
  else (.persisted, files ++ [qaArtifact pid])

/-! ## Fetchers -/

/-- What one `requests.get` call comes back with: a body, or a
network-level / non-2xx failure (`raise_for_status`). -/
inductive FetchOutcome where
  | success (body : PyStr)
  | failure (err : PyStr)
deriving DecidableEq, Repr

structure TransportError where
  msg : PyStr
deriving DecidableEq, Repr

/-- com_spider.send_request lines 66-71: one `requests.get`; on
`RequestException` log and re-`raise`.  The `Nat` is the number of
requests issued by the call; the result is the returned value
(`Option`, since a Python function can return `None`) or the raised
error. -/
def commentSendRequest (o : FetchOutcome) :
    Nat × Except TransportError (Option PyStr) :=
  match o with
  | .success b => (1, .ok (some b))
  | .failure e => (1, .error ⟨e⟩)

/-- qa_spider.send_request lines 65-70: one `requests.get`; on
`RequestException` log — and fall off the end of the function,
returning `None` instead of re-raising. -/
def qaSendRequest (o : FetchOutcome) :
    Nat × Except TransportError (Option PyStr) :=
  match o with
  | .success b => (1, .ok (some b))
  | .failure _ => (1, .ok none)

/-- `true` iff the call raised rather than returned. -/
def raisesError (r : Except TransportError (Option PyStr)) : Bool :=
  match r with
  | .error _ => true
  | .ok _ => false

/-! ## Target worker pool (page dispatch) -/

/-- com_spider.start_crawling line 195: `for page in range(self.pages)`,
one submitted task per page. -/
def commentPages (pages : Nat) : List Nat := List.range pages

/-- qa_spider.start_crawling line 213:
`for page in range(1, self.pages + 1)`. -/
def qaPages (pages : Nat) : List Nat := List.range' 1 pages

/-- The accumulation handed to the persister: every dispatched page's
records appended under the lock, in dispatch order in this sequential
model (no cross-page order is claimed). -/
def commentAccum (pages : Nat) (fetchParse : Nat → List CommentRow) :
    List CommentRow :=
  (commentPages pages).foldl (fun acc page => acc ++ fetchParse page) []

def qaAccum (pages : Nat) (fetchParse : Nat → List QARow) : List QARow :=
  (qaPages pages).foldl (fun acc page => acc ++ fetchParse page) []

/-- com_spider.start_crawling: the `with ThreadPoolExecutor` block joins
all page tasks, and only then is save_comments called on the
accumulated data. -/
def startCrawlingComment (pages : Nat) (fetchParse : Nat → List CommentRow)
    (pid : SkuId) (files : List PyStr) : PersistResult × List PyStr :=
  saveComments pid (commentAccum pages fetchParse) files

/-- qa_spider.start_crawling: join all page tasks, then save_data. -/
def startCrawlingQA (pages : Nat) (fetchParse : Nat → List QARow)
    (pid : SkuId) (files : List PyStr) : PersistResult × List PyStr :=
  saveData pid (qaAccum pages fetchParse) files

/-! ## Resume orchestrator (main.py crawl_comments_and_qa) -/

/-- One entry of `os.listdir(ids_collection_dir)`.  `decode = none`
models `json.JSONDecodeError` when the file is opened and loaded;
`decode = some skus` is `list(data.values())[0]` mapped through
`product_info["sku"]`. -/
structure DirEntry where
  name : PyStr
  isFile : Bool
  decode : Option (List SkuId)

structure RunState where
  /-- Total page fetch requests issued so far in the run. -/
  fetches : Nat
  /-- Listing of the output directory. -/
  outputFiles : List PyStr
  /-- Lines of resume_checkpoint.txt. -/
  checkpoint : List PyStr

/-- main.py lines 85-97 for one product id: skip when the id is in the
per-manifest index snapshot; otherwise comment_spider.start_crawling
dispatches `pages` page requests and save_comments may add the artifact
(the qa_spider call is commented out in main.py).  `collectRows` gives
the rows the crawl accumulates for that id in this run. -/
def processTarget (pages : Nat) (collectRows : SkuId → List CommentRow)
    (index : List PyStr) (st : Nat × List PyStr) (sku : SkuId) :
    Nat × List PyStr :=
  if skuIn sku index then st
  else
    (st.1 + pages, (saveComments sku (collectRows sku) st.2).2)

/-- main.py lines 77-97: the output directory is listed once per
manifest (a point-in-time index snapshot), then each sku is processed
in manifest order against that snapshot. -/
def processManifest (pages : Nat) (collectRows : SkuId → List CommentRow)
    (skus : List SkuId) (files : List PyStr) : Nat × List PyStr :=
  skus.foldl (processTarget pages collectRows (buildIndex files)) (0, files)

/-- main.py lines 70-104, one directory entry: only regular files ending
in `.json` are considered; on decode failure log and move on without a
checkpoint entry; on success process every target, then append the
manifest's name to the checkpoint. -/
def runStep (pages : Nat) (collectRows : SkuId → List CommentRow)
    (st : RunState) (e : DirEntry) : RunState :=
  if e.isFile && endsWith jsonSuffix e.name then
    match e.decode with
    | none => st
    | some skus =>
      let pr := processManifest pages collectRows skus st.outputFiles
      { fetches := st.fetches + pr.1
        outputFiles := pr.2
        checkpoint := st.checkpoint ++ [e.name] }
  else st

/-- main.py crawl_comments_and_qa: read the checkpoint once, drop the
directory entries whose names it already holds, then process the rest
in order. -/
def runOrchestrator (pages : Nat) (collectRows : SkuId → List CommentRow)
    (entries : List DirEntry) (checkpoint : List PyStr)
    (files : List PyStr) : RunState :=
  (entries.filter (fun e => !decide (e.name ∈ checkpoint))).foldl
    (runStep pages collectRows) ⟨0, files, checkpoint⟩

/-- A manifest entry the run actually processes and checkpoints: a
regular `.json` file that decodes. -/
def activeEntry (e : DirEntry) : Bool :=
  e.isFile && endsWith jsonSuffix e.name && e.decode.isSome

/-! ## Helper lemmas: splitting and the index -/

theorem splitOnChar_of_not_mem {c : Char} {s : PyStr} (h : c ∉ s) :
    splitOnChar c s = [s] := by
  induction s with
  | nil => rfl
  | cons x xs ih =>
    simp only [List.mem_cons, not_or] at h
    have hx : ¬ x = c := fun hxc => h.1 hxc.symm
    simp only [splitOnChar, if_neg hx, ih h.2]

theorem splitOnChar_append {c : Char} {xs : PyStr} (ys : PyStr) (h : c ∉ xs) :
    splitOnChar c (xs ++ c :: ys) = xs :: splitOnChar c ys := by
  induction xs with
  | nil => simp [splitOnChar]
  | cons x xt ih =>
    simp only [List.mem_cons, not_or] at h
    have hx : ¬ x = c := fun hxc => h.1 hxc.symm
    simp only [List.cons_append, splitOnChar, if_neg hx, List.append_eq, ih h.2]

theorem extractId_comArtifact {id : PyStr} (h1 : '_' ∉ id) (h2 : '.' ∉ id) :
    extractId (comArtifact (.str id)) = some id := by
  have hrest : '_' ∉ id ++ csvSuffix := by
    intro hm
    rcases List.mem_append.mp hm with hl | hr
    · exact h1 hl
    · simp [csvSuffix] at hr
  have hsplit :
      splitOnChar '_' (comArtifact (.str id)) =
        ['c', 'o', 'm'] :: splitOnChar '_' (id ++ csvSuffix) :=
    @splitOnChar_append '_' ['c', 'o', 'm'] (id ++ csvSuffix) (by decide)
  rw [show comArtifact (.str id) =
        ['c', 'o', 'm'] ++ '_' :: (id ++ csvSuffix) from rfl] at hsplit ⊢
  unfold extractId
  rw [hsplit, splitOnChar_of_not_mem hrest]
  have hdot : splitOnChar '.' (id ++ csvSuffix) =
      id :: splitOnChar '.' ['c', 's', 'v'] :=
    @splitOnChar_append '.' id ['c', 's', 'v'] h2
  simp [hdot]

theorem extractId_qaArtifact {id : PyStr} (h1 : '_' ∉ id) (h2 : '.' ∉ id) :
    extractId (qaArtifact (.str id)) = some id := by
  have hrest : '_' ∉ id ++ csvSuffix := by
    intro hm
    rcases List.mem_append.mp hm with hl | hr
    · exact h1 hl
    · simp [csvSuffix] at hr
  have hsplit :
      splitOnChar '_' (qaArtifact (.str id)) =
        ['q', 'a'] :: splitOnChar '_' (id ++ csvSuffix) :=
    @splitOnChar_append '_' ['q', 'a'] (id ++ csvSuffix) (by decide)
  unfold extractId
  rw [hsplit, splitOnChar_of_not_mem hrest]
  have hdot : splitOnChar '.' (id ++ csvSuffix) =
      id :: splitOnChar '.' ['c', 's', 'v'] :=
    @splitOnChar_append '.' id ['c', 's', 'v'] h2
  simp [hdot]

theorem endsWith_comArtifact (pid : SkuId) :
    endsWith csvSuffix (comArtifact pid) = true := by
  simp only [endsWith, decide_eq_true_eq, comArtifact]
  exact ((List.suffix_append (skuStr pid) csvSuffix).trans
    (List.suffix_cons '_' _)).trans
    (((List.suffix_cons 'm' _).trans (List.suffix_cons 'o' _)).trans
      (List.suffix_cons 'c' _))

theorem endsWith_qaArtifact (pid : SkuId) :
    endsWith csvSuffix (qaArtifact pid) = true := by
  simp only [endsWith, decide_eq_true_eq, qaArtifact]
  exact ((List.suffix_append (skuStr pid) csvSuffix).trans
    (List.suffix_cons '_' _)).trans
    ((List.suffix_cons 'a' _).trans (List.suffix_cons 'q' _))

theorem mem_buildIndex_com {id : PyStr} {files : List PyStr}
    (h1 : '_' ∉ id) (h2 : '.' ∉ id)
    (hf : comArtifact (.str id) ∈ files) : id ∈ buildIndex files := by
  unfold buildIndex
  exact List.mem_filterMap.mpr
    ⟨comArtifact (.str id),
     List.mem_filter.mpr ⟨hf, endsWith_comArtifact _⟩,
     extractId_comArtifact h1 h2⟩

theorem mem_buildIndex_qa {id : PyStr} {files : List PyStr}
    (h1 : '_' ∉ id) (h2 : '.' ∉ id)
    (hf : qaArtifact (.str id) ∈ files) : id ∈ buildIndex files := by
  unfold buildIndex
  exact List.mem_filterMap.mpr
    ⟨qaArtifact (.str id),
     List.mem_filter.mpr ⟨hf, endsWith_qaArtifact _⟩,
     extractId_qaArtifact h1 h2⟩

/-! ## Helper lemmas: orchestrator folds -/

theorem runStep_inactive {pages : Nat} {collectRows : SkuId → List CommentRow}
    {st : RunState} {e : DirEntry} (h : activeEntry e = false) :
    runStep pages collectRows st e = st := by
  unfold runStep
  cases hd : e.decode with
  | none => split <;> rfl
  | some skus =>
    have hfj : (e.isFile && endsWith jsonSuffix e.name) = false := by
      simp only [activeEntry, hd, Option.isSome_some, Bool.and_true] at h
      exact h
    simp [hfj]

theorem mem_checkpoint_runStep {pages : Nat} {collectRows : SkuId → List CommentRow}
    (st : RunState) (e : DirEntry) {x : PyStr} (hx : x ∈ st.checkpoint) :
    x ∈ (runStep pages collectRows st e).checkpoint := by
  unfold runStep
  split
  · split
    · exact hx
    · exact List.mem_append_left _ hx
  · exact hx

theorem mem_checkpoint_foldl {pages : Nat} {collectRows : SkuId → List CommentRow}
    (l : List DirEntry) (st : RunState) {x : PyStr} (hx : x ∈ st.checkpoint) :
    x ∈ (l.foldl (runStep pages collectRows) st).checkpoint := by
  induction l generalizing st with
  | nil => exact hx
  | cons e t ih =>
    rw [List.foldl_cons]
    exact ih _ (mem_checkpoint_runStep st e hx)

theorem name_mem_checkpoint_foldl {pages : Nat}
    {collectRows : SkuId → List CommentRow} (l : List DirEntry)
    (st : RunState) {e : DirEntry} (he : e ∈ l) (ha : activeEntry e = true) :
    e.name ∈ (l.foldl (runStep pages collectRows) st).checkpoint := by
  induction l generalizing st with
  | nil => cases he
  | cons f t ih =>
    rcases List.mem_cons.mp he with rfl | ht
    · rw [List.foldl_cons]
      apply mem_checkpoint_foldl
      simp only [activeEntry, Bool.and_eq_true] at ha
      obtain ⟨skus, hd⟩ := Option.isSome_iff_exists.mp ha.2
      simp [runStep, ha.1.1, ha.1.2, hd]
    · rw [List.foldl_cons]
      exact ih _ ht

theorem fetches_foldl_inactive {pages : Nat}
    {collectRows : SkuId → List CommentRow} (l : List DirEntry) (st : RunState)
    (h : ∀ e ∈ l, activeEntry e = false) :
    (l.foldl (runStep pages collectRows) st).fetches = st.fetches := by
  induction l generalizing st with
  | nil => rfl
  | cons e t ih =>
    rw [List.foldl_cons, runStep_inactive (h e (List.mem_cons_self e t))]
    exact ih st fun f hf => h f (List.mem_cons_of_mem e hf)

theorem processTarget_fold_fetches (pages : Nat)
    (collectRows : SkuId → List CommentRow) (index : List PyStr)
    (skus : List SkuId) (st : Nat × List PyStr) :
    (skus.foldl (processTarget pages collectRows index) st).1 =
      st.1 + pages * (skus.filter (fun s => !skuIn s index)).length := by
  induction skus generalizing st with
  | nil => simp
  | cons s t ih =>
    rw [List.foldl_cons]
    cases hs : skuIn s index with
    | true => simp [processTarget, hs, ih]
    | false =>
      simp only [processTarget, hs, Bool.false_eq_true, if_false,
        List.filter_cons, Bool.not_false, if_true, List.length_cons, ih]
      rw [Nat.mul_succ]
      omega

/-! ## Helper lemmas: parsers and accumulation -/

theorem parseQARows_all_some (qs : List RawQuestion)
    (h : ∀ q ∈ qs, q.answerList.isSome = true) :
    parseQARows qs = qs.flatMap qaExpand := by
  induction qs with
  | nil => rfl
  | cons q t ih =>
    obtain ⟨ans, hq⟩ :=
      Option.isSome_iff_exists.mp (h q (List.mem_cons_self q t))
    rw [List.flatMap_cons, ← ih fun x hx => h x (List.mem_cons_of_mem q hx)]
    simp [parseQARows, hq, qaExpand]

theorem parseQARows_append_bad (pre post : List RawQuestion)
    (qbad : RawQuestion) (hpre : ∀ q ∈ pre, q.answerList.isSome = true)
    (hbad : qbad.answerList = none) :
    parseQARows (pre ++ qbad :: post) = pre.flatMap qaExpand := by
  induction pre with
  | nil => simp [parseQARows, hbad]
  | cons q t ih =>
    obtain ⟨ans, hq⟩ :=
      Option.isSome_iff_exists.mp (hpre q (List.mem_cons_self q t))
    rw [List.flatMap_cons,
      ← ih fun x hx => hpre x (List.mem_cons_of_mem q hx)]
    simp [parseQARows, hq, qaExpand]

theorem mem_foldl_append {α : Type} (g : Nat → List α) (l : List Nat)
    (acc : List α) {r : α} (hr : r ∈ acc) :
    r ∈ l.foldl (fun a p => a ++ g p) acc := by
  induction l generalizing acc with
  | nil => exact hr
  | cons p t ih =>
    rw [List.foldl_cons]
    exact ih _ (List.mem_append_left _ hr)

theorem mem_foldl_append_of_page {α : Type} (g : Nat → List α) (l : List Nat)
    (acc : List α) {p : Nat} (hp : p ∈ l) {r : α} (hr : r ∈ g p) :
    r ∈ l.foldl (fun a q => a ++ g q) acc := by
  induction l generalizing acc with
  | nil => cases hp
  | cons q t ih =>
    rw [List.foldl_cons]
    rcases List.mem_cons.mp hp with rfl | hq
    · exact mem_foldl_append g t _ (List.mem_append_right _ hr)
    · exact ih _ hq

theorem runOrchestrator_fetches_zero (pages : Nat)
    (collectRows : SkuId → List CommentRow) (entries : List DirEntry)
    (cp files : List PyStr)
    (h : ∀ e ∈ entries, activeEntry e = true → e.name ∈ cp) :
    (runOrchestrator pages collectRows entries cp files).fetches = 0 := by
  unfold runOrchestrator
  apply fetches_foldl_inactive
  intro e he
  obtain ⟨hemem, hename⟩ := List.mem_filter.mp he
  cases ha : activeEntry e with
  | false => rfl
  | true => exact absurd (h e hemem ha) (by simpa using hename)

theorem runOrchestrator_active_checkpointed (pages : Nat)
    (collectRows : SkuId → List CommentRow) (entries : List DirEntry)
    (cp files : List PyStr) {e : DirEntry} (he : e ∈ entries)
    (ha : activeEntry e = true) :
    e.name ∈ (runOrchestrator pages collectRows entries cp files).checkpoint := by
  unfold runOrchestrator
  by_cases hin : e.name ∈ cp
  · exact mem_checkpoint_foldl _ _ hin
  · exact name_mem_checkpoint_foldl _ _
      (List.mem_filter.mpr ⟨he, by simpa using hin⟩) ha

theorem single_manifest_skip (id : PyStr) (files cp : List PyStr)
    (pages : Nat) (collectRows : SkuId → List CommentRow)
    (hmem : id ∈ buildIndex files) (hcp : "m1.json".data ∉ cp) :
    (runOrchestrator pages collectRows
      [⟨"m1.json".data, true, some [.str id]⟩] cp files).fetches = 0 := by
  have hsku : skuIn (.str id) (buildIndex files) = true := by
    simp [skuIn, hmem]
  have hj : endsWith jsonSuffix ("m1.json".data) = true := by decide
  simp [runOrchestrator, hcp, runStep, hj, processManifest, processTarget, hsku]

theorem single_manifest_unskipped (sku : SkuId) (files cp : List PyStr)
    (pages : Nat) (collectRows : SkuId → List CommentRow)
    (hidx : skuIn sku (buildIndex files) = false)
    (hcp : "m1.json".data ∉ cp) :
    runOrchestrator pages collectRows
        [⟨"m1.json".data, true, some [sku]⟩] cp files =
      { fetches := pages
        outputFiles := (saveComments sku (collectRows sku) files).2
        checkpoint := cp ++ ["m1.json".data] } := by
  have hj : endsWith jsonSuffix ("m1.json".data) = true := by decide
  simp [runOrchestrator, hcp, runStep, hj, processManifest, processTarget,
    hidx]

/-! ## Claim theorems -/

/-- C1, counterexample: the persisted artifact `com_123.csv` for the
integer sku `123` rebuilds into the string index entry `"123"`, which
the Python membership test `123 in output_files` never matches, so a
later pass over a manifest listing `123` fetches its pages again
(1 fetch with pages = 1) instead of skipping the target. -/
theorem c1_roundtrip_counterexample :
    skuIn (.int 123) (buildIndex [comArtifact (.int 123)]) = false ∧
    (runOrchestrator 1 (fun _ => [])
      [⟨"m1.json".data, true, some [.int 123]⟩] []
      [comArtifact (.int 123)]).fetches = 1 := by
  constructor <;> decide

/-- C1, amended: for a Target whose manifest identifier is a string
(containing no `'_'` and no `'.'`), a persisted artifact rebuilds into
an index containing the identifier, and a later orchestrator pass over
a manifest listing that Target performs no fetches; integer skus never
match the string-typed index and are re-fetched. -/
theorem c1_roundtrip_string_sku (id : PyStr) (files cp : List PyStr)
    (pages : Nat) (collectRows : SkuId → List CommentRow)
    (h1 : '_' ∉ id) (h2 : '.' ∉ id)
    (hf : comArtifact (.str id) ∈ files)
    (hcp : "m1.json".data ∉ cp) :
    skuIn (.str id) (buildIndex files) = true ∧
    (runOrchestrator pages collectRows
      [⟨"m1.json".data, true, some [.str id]⟩] cp files).fetches = 0 := by
  have hmem : id ∈ buildIndex files := mem_buildIndex_com h1 h2 hf
  exact ⟨by simp [skuIn, hmem],
    single_manifest_skip id files cp pages collectRows hmem hcp⟩

/-- C1 witness: the amended round trip at the concrete string sku
`"123"`. -/
theorem c1_roundtrip_string_sku_witness :
    skuIn (.str ['1', '2', '3'])
      (buildIndex [comArtifact (.str ['1', '2', '3'])]) = true ∧
    (runOrchestrator 2 (fun _ => [])
      [⟨"m1.json".data, true, some [.str ['1', '2', '3']]⟩] []
      [comArtifact (.str ['1', '2', '3'])]).fetches = 0 :=
  c1_roundtrip_string_sku ['1', '2', '3']
    [comArtifact (.str ['1', '2', '3'])] [] 2 (fun _ => [])
    (by decide) (by decide) (List.mem_singleton.mpr rfl) (by simp)

/-- C2: a manifest that is a `.json` file and decodes lands in the
checkpoint exactly together with the processing of every one of its
targets (the run's final state is the full fold over all skus plus the
appended name, and the fetch count accounts for every non-skipped sku);
a manifest whose decode fails leaves the checkpoint unchanged and so
stays eligible for retry. -/
theorem c2_checkpoint_after_manifest (pages : Nat)
    (collectRows : SkuId → List CommentRow) (cp files : List PyStr)
    (name : PyStr) (skus : List SkuId)
    (hjson : endsWith jsonSuffix name = true) (hcp : name ∉ cp) :
    runOrchestrator pages collectRows [⟨name, true, some skus⟩] cp files =
      { fetches := (processManifest pages collectRows skus files).1
        outputFiles := (processManifest pages collectRows skus files).2
        checkpoint := cp ++ [name] } ∧
    (processManifest pages collectRows skus files).1 =
      pages * ((skus.filter (fun s => !skuIn s (buildIndex files))).length) ∧
    (runOrchestrator pages collectRows [⟨name, true, none⟩] cp files).checkpoint
      = cp := by
  refine ⟨?_, ?_, ?_⟩
  · simp [runOrchestrator, hcp, runStep, hjson]
  · rw [processManifest, processTarget_fold_fetches]
    simp
  · simp [runOrchestrator, hcp, runStep, hjson]

/-- C2 witness: one single-target manifest over an empty state. -/
theorem c2_checkpoint_after_manifest_witness :
    runOrchestrator 2 (fun _ => [])
        [⟨"m.json".data, true, some [SkuId.int 5]⟩] [] [] =
      { fetches := (processManifest 2 (fun _ => []) [SkuId.int 5] []).1
        outputFiles := (processManifest 2 (fun _ => []) [SkuId.int 5] []).2
        checkpoint := [] ++ ["m.json".data] } ∧
    (processManifest 2 (fun _ => []) [SkuId.int 5] []).1 =
      2 * (([SkuId.int 5].filter (fun s => !skuIn s (buildIndex []))).length) ∧
    (runOrchestrator 2 (fun _ => [])
      [⟨"m.json".data, true, none⟩] [] []).checkpoint = [] :=
  c2_checkpoint_after_manifest 2 (fun _ => []) [] [] "m.json".data
    [SkuId.int 5] (by decide) (by simp)

/-- C3: running the orchestrator a second time over the same directory
entries, starting from the first run's checkpoint and output directory,
issues zero fetches: every manifest the first run processed was
appended to the checkpoint and is filtered out before any of its
targets is examined, and the remaining entries (non-files, non-json
names, decode failures) never fetch. -/
theorem c3_second_run_zero_fetches (pages : Nat)
    (collectRows : SkuId → List CommentRow) (entries : List DirEntry)
    (checkpoint files : List PyStr) :
    (runOrchestrator pages collectRows entries
      (runOrchestrator pages collectRows entries checkpoint files).checkpoint
      (runOrchestrator pages collectRows entries checkpoint files).outputFiles
      ).fetches = 0 :=
  runOrchestrator_fetches_zero _ _ _ _ _ fun _e he ha =>
    runOrchestrator_active_checkpointed _ _ _ _ _ he ha

/-- C4: one collection run dispatches exactly `pages` page tasks — with
indices 0 through pages−1 for comments and 1 through pages for QA — and
the persister is invoked only on the accumulation that joins every
dispatched page task's records. -/
theorem c4_page_dispatch (pages : Nat) :
    (commentPages pages).length = pages ∧
    (∀ i, i ∈ commentPages pages ↔ i < pages) ∧
    (qaPages pages).length = pages ∧
    (∀ i, i ∈ qaPages pages ↔ 1 ≤ i ∧ i ≤ pages) ∧
    (∀ (f : Nat → List CommentRow) (pid : SkuId) (files : List PyStr),
      startCrawlingComment pages f pid files =
        saveComments pid (commentAccum pages f) files) ∧
    (∀ (f : Nat → List CommentRow) (p : Nat), p ∈ commentPages pages →
      ∀ r ∈ f p, r ∈ commentAccum pages f) ∧
    (∀ (f : Nat → List QARow) (pid : SkuId) (files : List PyStr),
      startCrawlingQA pages f pid files =
        saveData pid (qaAccum pages f) files) ∧
    (∀ (f : Nat → List QARow) (p : Nat), p ∈ qaPages pages →
      ∀ r ∈ f p, r ∈ qaAccum pages f) := by
  refine ⟨List.length_range pages, fun i => List.mem_range, ?_, ?_,
    fun f pid files => rfl, ?_, fun f pid files => rfl, ?_⟩
  · simp [qaPages]
  · intro i
    rw [qaPages, List.mem_range'_1]
    omega
  · intro f p hp r hr
    exact mem_foldl_append_of_page f (commentPages pages) [] hp hr
  · intro f p hp r hr
    exact mem_foldl_append_of_page f (qaPages pages) [] hp hr

/-- C4 witness: boundary pages at pages = 3, and a one-row page task
whose record reaches the accumulation. -/
theorem c4_page_dispatch_witness :
    (commentPages 3).length = 3 ∧ 2 ∈ commentPages 3 ∧
    (qaPages 3).length = 3 ∧ 3 ∈ qaPages 3 ∧
    (⟨[], [], [], [], [], [], [], []⟩ : CommentRow) ∈
      commentAccum 3 (fun _ => [⟨[], [], [], [], [], [], [], []⟩]) := by
  obtain ⟨h1, h2, h3, h4, _, h6, _, _⟩ := c4_page_dispatch 3
  exact ⟨h1, (h2 2).mpr (by decide), h3, (h4 3).mpr (by decide),
    h6 _ 0 ((h2 0).mpr (by decide)) _ (List.mem_singleton.mpr rfl)⟩

/-- C5, counterexample: on a failed request the QA fetcher's
`send_request` logs and falls off the end of the function — it returns
`None` (a normal value) to its caller instead of re-raising, unlike the
comment fetcher which re-raises. -/
theorem c5_fetch_failure_counterexample :
    qaSendRequest (.failure ['e']) = (1, .ok none) ∧
    raisesError (qaSendRequest (.failure ['e'])).2 = false ∧
    raisesError (commentSendRequest (.failure ['e'])).2 = true :=
  ⟨rfl, rfl, rfl⟩

/-- C5, amended: on any network-level failure or non-success status the
comment fetcher raises the transport error to its caller, while the QA
fetcher swallows it and returns `None`; neither fetcher retries — every
call issues exactly one outbound request whatever the outcome. -/
theorem c5_fetch_failure_behavior (e : PyStr) :
    commentSendRequest (.failure e) = (1, .error ⟨e⟩) ∧
    qaSendRequest (.failure e) = (1, .ok none) ∧
    (∀ o, (commentSendRequest o).1 = 1 ∧ (qaSendRequest o).1 = 1) := by
  refine ⟨rfl, rfl, fun o => ?_⟩
  cases o <;> exact ⟨rfl, rfl⟩

/-- C6, counterexample: a QA payload whose first question lacks the
`answerList` key and whose second question is fully well-formed parses
to the empty row list — the well-formed record is dropped — although
the same well-formed question alone parses to one row. -/
theorem c6_parser_tolerance_counterexample :
    parseQA (some [⟨some ['q', '1'], none, none, none, none⟩,
      ⟨some ['q', '2'], none, none, none,
        some [⟨some ['a'], none, none, none⟩]⟩]) = [] ∧
    parseQA (some [⟨some ['q', '2'], none, none, none,
        some [⟨some ['a'], none, none, none⟩]⟩]) =
      [⟨['q', '2'], [], [], [], ['a'], [], [], []⟩] :=
  ⟨rfl, rfl⟩

/-- C6, amended: the comment parser substitutes a default for every
absent field and keeps every record of the page, and empty or absent
list containers parse to empty sequences in both parsers; the QA parser
however only tolerates absent scalar fields — a question whose
`answerList` key is absent aborts the page at that question, keeping
exactly the records of the questions before it. -/
theorem c6_parser_tolerance (pid : SkuId) (l : List RawComment)
    (c : RawComment) (hc : c ∈ l) (qs pre post : List RawQuestion)
    (qbad : RawQuestion)
    (hqs : ∀ q ∈ qs, q.answerList.isSome = true)
    (hpre : ∀ q ∈ pre, q.answerList.isSome = true)
    (hbad : qbad.answerList = none) :
    parseCommentRecord pid c ∈ parseComments pid (some l) ∧
    (parseComments pid (some l)).length = l.length ∧
    parseComments pid none = [] ∧
    parseQA none = [] ∧ parseQA (some []) = [] ∧
    parseQA (some qs) = qs.flatMap qaExpand ∧
    parseQA (some (pre ++ qbad :: post)) = pre.flatMap qaExpand :=
  ⟨List.mem_map_of_mem _ hc, List.length_map _ _, rfl, rfl, rfl,
    parseQARows_all_some qs hqs, parseQARows_append_bad pre post qbad hpre hbad⟩

/-- C6 witness: a comment record with every field absent still parses
to a (defaulted) row, and a malformed question with nothing before it
yields the empty page. -/
theorem c6_parser_tolerance_witness :
    parseCommentRecord (.str ['7']) ⟨none, none, none, none, none, none, none⟩
      ∈ parseComments (.str ['7'])
        (some [⟨none, none, none, none, none, none, none⟩]) ∧
    parseQA (some ([] ++ (⟨none, none, none, none, none⟩ : RawQuestion) :: []))
      = ([] : List RawQuestion).flatMap qaExpand := by
  obtain ⟨h1, _, _, _, _, _, h7⟩ := c6_parser_tolerance (.str ['7'])
    [⟨none, none, none, none, none, none, none⟩]
    ⟨none, none, none, none, none, none, none⟩ (List.mem_singleton.mpr rfl)
    [] [] [] ⟨none, none, none, none, none⟩
    (fun q hq => absurd hq (List.not_mem_nil q))
    (fun q hq => absurd hq (List.not_mem_nil q)) rfl
  exact ⟨h1, h7⟩

/-- C7, counterexample: in a payload whose first question lacks
`answerList`, a later question carrying 2 answers expands to 0 output
records rather than 2, so the expansion property fails for arbitrary
payloads. -/
theorem c7_qa_expansion_counterexample :
    ((⟨some ['g'], none, none, none,
        some [⟨some ['x'], none, none, none⟩,
          ⟨some ['y'], none, none, none⟩]⟩ : RawQuestion).answerList.getD
        []).length = 2 ∧
    parseQA (some [⟨none, some ['b'], none, none, none⟩,
      ⟨some ['g'], none, none, none,
        some [⟨some ['x'], none, none, none⟩,
          ⟨some ['y'], none, none, none⟩]⟩]) = [] :=
  ⟨rfl, rfl⟩

/-- C7, amended: in a QA payload where every question carries its
answer list, the parse is the per-question expansion: each question
with N answers contributes exactly N rows, one per (question, answer)
pair, all sharing that question's id, content, product id and creation
time, and a question with an empty answer list contributes zero
rows. -/
theorem c7_qa_expansion (qs : List RawQuestion)
    (hqs : ∀ q ∈ qs, q.answerList.isSome = true) (q : RawQuestion) :
    parseQA (some qs) = qs.flatMap qaExpand ∧
    (qaExpand q).length = (q.answerList.getD []).length ∧
    (q.answerList = some [] → qaExpand q = []) ∧
    (∀ a ∈ q.answerList.getD [], mkQARow q a ∈ qaExpand q) ∧
    (∀ r ∈ qaExpand q,
      r.id = q.id.getD [] ∧ r.question_content = q.content.getD [] ∧
      r.product_id = q.productId.getD [] ∧
      r.created_time = q.created.getD []) := by
  refine ⟨parseQARows_all_some qs hqs, List.length_map _ _, ?_, ?_, ?_⟩
  · intro h
    simp [qaExpand, h]
  · intro a ha
    exact List.mem_map_of_mem _ ha
  · intro r hr
    obtain ⟨a, _, rfl⟩ := List.mem_map.mp hr
    exact ⟨rfl, rfl, rfl, rfl⟩

/-- C7 witness: a payload of one question with one answer expands to
its single (question, answer) row. -/
theorem c7_qa_expansion_witness :
    parseQA (some [(⟨some ['q'], none, none, none,
        some [⟨some ['a'], none, none, none⟩]⟩ : RawQuestion)]) =
      [(⟨some ['q'], none, none, none,
        some [⟨some ['a'], none, none, none⟩]⟩ : RawQuestion)].flatMap
        qaExpand ∧
    (qaExpand ⟨some ['q'], none, none, none,
      some [⟨some ['a'], none, none, none⟩]⟩).length = 1 := by
  obtain ⟨h1, h2, _⟩ := c7_qa_expansion
    [⟨some ['q'], none, none, none, some [⟨some ['a'], none, none, none⟩]⟩]
    (fun x hx => by rw [List.mem_singleton.mp hx]; rfl)
    ⟨some ['q'], none, none, none, some [⟨some ['a'], none, none, none⟩]⟩
  exact ⟨h1, h2⟩

/-- C8: a target whose sealed accumulation is empty is Skipped by both
persisters, no artifact is created (the directory listing is
unchanged), and a target identifier absent from the rebuilt index
before the save is still absent after it, so the target stays eligible
for retry. -/
theorem c8_empty_skipped (pid : SkuId) (files : List PyStr)
    (h : skuIn pid (buildIndex files) = false) :
    saveComments pid [] files = (.skipped, files) ∧
    saveData pid [] files = (.skipped, files) ∧
    skuIn pid (buildIndex (saveComments pid [] files).2) = false ∧
    skuIn pid (buildIndex (saveData pid [] files).2) = false :=
  ⟨rfl, rfl, h, h⟩

/-- C8 witness: the empty accumulation over an empty output
directory. -/
theorem c8_empty_skipped_witness :
    saveComments (.str ['9']) [] [] = (.skipped, []) ∧
    saveData (.str ['9']) [] [] = (.skipped, []) ∧
    skuIn (.str ['9']) (buildIndex (saveComments (.str ['9']) [] []).2)
      = false ∧
    skuIn (.str ['9']) (buildIndex (saveData (.str ['9']) [] []).2)
      = false :=
  c8_empty_skipped (.str ['9']) [] (by decide)

/-- C9, counterexample: a run over one manifest whose single target
accumulates exactly one record skips persisting (no artifact is
created), yet a subsequent run over the same manifest directory and
output directory performs zero fetches — the target is NOT re-fetched,
because its manifest was checkpointed regardless of the skip. -/
theorem c9_single_record_refetch_counterexample :
    saveComments (.str ['5'])
      [⟨[], [], [], [], [], [], [], []⟩] [] = (.skipped, []) ∧
    (runOrchestrator 1 (fun _ => [⟨[], [], [], [], [], [], [], []⟩])
      [⟨"m.json".data, true, some [.str ['5']]⟩] [] []).fetches = 1 ∧
    (runOrchestrator 1 (fun _ => [⟨[], [], [], [], [], [], [], []⟩])
      [⟨"m.json".data, true, some [.str ['5']]⟩] [] []).outputFiles = [] ∧
    (runOrchestrator 1 (fun _ => [⟨[], [], [], [], [], [], [], []⟩])
      [⟨"m.json".data, true, some [.str ['5']]⟩]
      (runOrchestrator 1 (fun _ => [⟨[], [], [], [], [], [], [], []⟩])
        [⟨"m.json".data, true, some [.str ['5']]⟩] [] []).checkpoint
      (runOrchestrator 1 (fun _ => [⟨[], [], [], [], [], [], [], []⟩])
        [⟨"m.json".data, true, some [.str ['5']]⟩] [] []).outputFiles
      ).fetches = 0 := by
  refine ⟨?_, ?_, ?_, ?_⟩ <;> decide

/-- C9, amended: the skip guard `len(...) <= 1` fires on a
single-record accumulation as well — one record produces no artifact
and leaves the directory unchanged, and either persister skips exactly
when the row count is at most 1.  The target is fetched (all `pages`
page requests) in any run that processes its manifest while its
identifier is absent from the index, but it is not re-fetched on a
subsequent run over the same manifest directory: the manifest is
appended to the checkpoint regardless of the skip, so a later run
filters the manifest out and performs zero fetches for the target.  It
is re-fetched only when its manifest is processed again (for instance
when the identifier appears in a new, un-checkpointed manifest). -/
theorem c9_single_record_skipped (pid sku : SkuId) (r : CommentRow)
    (qr : QARow) (rows : List CommentRow) (qrows : List QARow)
    (files cp : List PyStr) (pages : Nat)
    (hidx : skuIn sku (buildIndex files) = false)
    (hcp : "m1.json".data ∉ cp) :
    saveComments pid [r] files = (.skipped, files) ∧
    saveData pid [qr] files = (.skipped, files) ∧
    ((saveComments pid rows files).1 = .skipped ↔ rows.length ≤ 1) ∧
    ((saveData pid qrows files).1 = .skipped ↔ qrows.length ≤ 1) ∧
    (runOrchestrator pages (fun _ => [r])
      [⟨"m1.json".data, true, some [sku]⟩] cp files).fetches = pages ∧
    (runOrchestrator pages (fun _ => [r])
      [⟨"m1.json".data, true, some [sku]⟩] cp files).outputFiles = files ∧
    (runOrchestrator pages (fun _ => [r])
      [⟨"m1.json".data, true, some [sku]⟩]
      (runOrchestrator pages (fun _ => [r])
        [⟨"m1.json".data, true, some [sku]⟩] cp files).checkpoint
      (runOrchestrator pages (fun _ => [r])
        [⟨"m1.json".data, true, some [sku]⟩] cp files).outputFiles
      ).fetches = 0 := by
  have hrun := single_manifest_unskipped sku files cp pages
    (fun _ => [r]) hidx hcp
  refine ⟨rfl, rfl, ?_, ?_, ?_, ?_, ?_⟩
  · by_cases hl : rows.length ≤ 1
    · simp [saveComments, hl]
    · simp [saveComments, hl]
  · by_cases hl : qrows.length ≤ 1
    · simp [saveData, hl]
    · simp [saveData, hl]
  · rw [hrun]
  · rw [hrun]
    simp [saveComments]
  · exact runOrchestrator_fetches_zero _ _ _ _ _ fun _e he ha =>
      runOrchestrator_active_checkpointed _ _ _ _ _ he ha

/-- C9 witness: a concrete single-record target — skipped, no
artifact, 2 page fetches in the run that processes its manifest, zero
fetches in the next run. -/
theorem c9_single_record_skipped_witness :
    saveComments (.str ['5'])
      [⟨[], [], [], [], [], [], [], []⟩] [] = (.skipped, []) ∧
    (runOrchestrator 2 (fun _ => [⟨[], [], [], [], [], [], [], []⟩])
      [⟨"m1.json".data, true, some [.str ['5']]⟩] [] []).fetches = 2 ∧
    (runOrchestrator 2 (fun _ => [⟨[], [], [], [], [], [], [], []⟩])
      [⟨"m1.json".data, true, some [.str ['5']]⟩] [] []).outputFiles = [] ∧
    (runOrchestrator 2 (fun _ => [⟨[], [], [], [], [], [], [], []⟩])
      [⟨"m1.json".data, true, some [.str ['5']]⟩]
      (runOrchestrator 2 (fun _ => [⟨[], [], [], [], [], [], [], []⟩])
        [⟨"m1.json".data, true, some [.str ['5']]⟩] [] []).checkpoint
      (runOrchestrator 2 (fun _ => [⟨[], [], [], [], [], [], [], []⟩])
        [⟨"m1.json".data, true, some [.str ['5']]⟩] [] []).outputFiles
      ).fetches = 0 := by
  obtain ⟨h1, _, _, _, h5, h6, h7⟩ := c9_single_record_skipped
    (.str ['5']) (.str ['5']) ⟨[], [], [], [], [], [], [], []⟩
    ⟨[], [], [], [], [], [], [], []⟩ [] [] [] [] 2 (by decide) (by simp)
  exact ⟨h1, h5, h6, h7⟩

/-- C10: the index strips the kind prefix, so a `qa_` artifact and a
`com_` artifact for the same identifier rebuild to the same index
entry, and an existing artifact of the QA kind alone makes a later
orchestrator pass skip the target entirely — the run fetches no comment
pages for it either. -/
theorem c10_kind_blind_index (id : PyStr) (files cp : List PyStr)
    (pages : Nat) (collectRows : SkuId → List CommentRow)
    (h1 : '_' ∉ id) (h2 : '.' ∉ id)
    (hf : qaArtifact (.str id) ∈ files)
    (hcp : "m1.json".data ∉ cp) :
    extractId (qaArtifact (.str id)) = some id ∧
    extractId (comArtifact (.str id)) = some id ∧
    skuIn (.str id) (buildIndex files) = true ∧
    (runOrchestrator pages collectRows
      [⟨"m1.json".data, true, some [.str id]⟩] cp files).fetches = 0 := by
  have hmem : id ∈ buildIndex files := mem_buildIndex_qa h1 h2 hf
  exact ⟨extractId_qaArtifact h1 h2, extractId_comArtifact h1 h2,
    by simp [skuIn, hmem],
    single_manifest_skip id files cp pages collectRows hmem hcp⟩

/-- C10 witness: a lone `qa_7.csv` artifact suppresses all fetching for
the target `"7"`. -/
theorem c10_kind_blind_index_witness :
    extractId (qaArtifact (.str ['7'])) = some ['7'] ∧
    extractId (comArtifact (.str ['7'])) = some ['7'] ∧
    skuIn (.str ['7']) (buildIndex [qaArtifact (.str ['7'])]) = true ∧
    (runOrchestrator 3 (fun _ => [])
      [⟨"m1.json".data, true, some [.str ['7']]⟩] []
      [qaArtifact (.str ['7'])]).fetches = 0 :=
  c10_kind_blind_index ['7'] [qaArtifact (.str ['7'])] [] 3 (fun _ => [])
    (by decide) (by decide) (List.mem_singleton.mpr rfl) (by simp)

end JdSpider
